import Mathlib

set_option linter.unusedVariables false
set_option linter.unreachableTactic false
set_option linter.unusedTactic false
set_option linter.unnecessarySeqFocus false

/-!
Verification of the drift-analysis component of the mlops-energy-prediction
repository (src/drift_analysis.py and src/drift_analysis_nannyml.py).

Modelling conventions:
* A pandas cell value is a `PFloat := Option ℚ`, where `none` stands for the
  IEEE NaN / pandas missing value and `some q` for a finite number.  The
  claims under study only involve exact arithmetic and NaN propagation, both
  of which are captured faithfully by rationals plus an explicit NaN.
* A DataFrame is column-oriented: a list of (column name, list of cell
  values).  Looking up an absent column corresponds to pandas raising
  `KeyError` and is modelled as `Option`/`Except`.
* `pd.Series.mean()` skips missing values and yields NaN on an empty
  selection; `pd.Series.std()` (ddof = 1) yields NaN when fewer than two
  non-missing values are present.  Its numeric value is a real square root,
  which is not rational; since no claim depends on that numeric value, every
  definition is parametric in the square-root function `sq : ℚ → ℚ`, and all
  theorems are proved for an arbitrary `sq`, hence hold in particular for the
  true one.
* Python comparisons on NaN: `nan != 0` is `True`, `nan > c` is `False`;
  `pyNe0` and `pyGt` encode exactly this.
-/

/-- A pandas float value: `none` is NaN (missing), `some q` a finite value. -/
abbrev PFloat := Option ℚ

/-- A DataFrame column: the list of cell values. -/
abbrev Column := List PFloat

/-- A column-oriented DataFrame: association list from column name to values. -/
abbrev DataFrame := List (String × Column)

/-- NaN-propagating subtraction. -/
def psub : PFloat → PFloat → PFloat
  | some a, some b => some (a - b)
  | _, _ => none

/-- NaN-propagating multiplication. -/
def pmul : PFloat → PFloat → PFloat
  | some a, some b => some (a * b)
  | _, _ => none

/-- NaN-propagating division.  A zero denominator yields a non-finite value
(modelled as `none`); in the drift code every division is guarded by a
Python `!= 0` test, so this case is never reached with a finite denominator. -/
def pdiv : PFloat → PFloat → PFloat
  | some a, some b => if b = 0 then none else some (a / b)
  | _, _ => none

/-- NaN-propagating absolute value (`abs` in Python). -/
def pabs : PFloat → PFloat
  | some a => some |a|
  | none => none

/-- The Python test `x != 0` on a float: `nan != 0` evaluates to `True`. -/
def pyNe0 : PFloat → Bool
  | some a => decide (a ≠ 0)
  | none => true

/-- The Python test `x > c` on a float: `nan > c` evaluates to `False`. -/
def pyGt (x : PFloat) (c : ℚ) : Bool :=
  match x with
  | some a => decide (c < a)
  | none => false

/-- `pd.Series.mean()` with the default `skipna=True`: the arithmetic mean of
the non-missing values, NaN when there are none. -/
def colMean (c : Column) : PFloat :=
  let vs := c.filterMap id
  if vs.isEmpty then none else some (vs.sum / (vs.length : ℚ))

/-- The sample variance (ddof = 1) of a list of rationals, used under the
square root in `pd.Series.std()`. -/
def sampleVar (vs : List ℚ) : ℚ :=
  let m := vs.sum / (vs.length : ℚ)
  ((vs.map fun x => (x - m) ^ 2).sum) / ((vs.length : ℚ) - 1)

/-- `pd.Series.std()` with the default `ddof=1`, `skipna=True`: NaN when fewer
than two non-missing values are present, otherwise the square root of the
sample variance.  Parametric in the square-root function `sq`. -/
def colStd (sq : ℚ → ℚ) (c : Column) : PFloat :=
  let vs := c.filterMap id
  if vs.length ≤ 1 then none else some (sq (sampleVar vs))

/-- Columns excluded from the feature set in `analyze_data_drift`
(src/drift_analysis.py line 67). -/
def excludeColsA : List String := ["date", "rv1", "rv2", "Appliances"]

/-- Feature derivation of `analyze_data_drift` (line 68): all reference
columns not in the exclusion list, in column order. -/
def featuresOf (df : DataFrame) : List String :=
  (df.map Prod.fst).filter (fun c => decide (c ∉ excludeColsA))

/-- `src/drift_analysis.py` line 79:
`mean_change = abs((prod_mean - ref_mean) / ref_mean * 100) if ref_mean != 0 else 0`. -/
def meanChange (refc prodc : Column) : PFloat :=
  let rm := colMean refc
  let pm := colMean prodc
  if pyNe0 rm then pabs (pmul (pdiv (psub pm rm) rm) (some 100)) else some 0

/-- `src/drift_analysis.py` line 80:
`std_change = abs((prod_std - ref_std) / ref_std * 100) if ref_std != 0 else 0`. -/
def stdChange (sq : ℚ → ℚ) (refc prodc : Column) : PFloat :=
  let rs := colStd sq refc
  let ps := colStd sq prodc
  if pyNe0 rs then pabs (pmul (pdiv (psub ps rs) rs) (some 100)) else some 0

/-- `src/drift_analysis.py` line 82:
`drift_detected = mean_change > 10 or std_change > 10`. -/
def driftFlag (sq : ℚ → ℚ) (refc prodc : Column) : Bool :=
  pyGt (meanChange refc prodc) 10 || pyGt (stdChange sq refc prodc) 10

/-- A value stored in one of the per-feature result dictionaries. -/
inductive PyVal where
  | str : String → PyVal
  | num : PFloat → PyVal
  | bool : Bool → PyVal
deriving DecidableEq, Repr

/-- One per-feature result: the Python dict appended to `drift_results`,
kept as an ordered key/value list. -/
abbrev DriftRow := List (String × PyVal)

/-- The dict literal of `src/drift_analysis.py` lines 84-90: keys `feature`,
`ref_mean`, `prod_mean`, `mean_change_%`, `drift_detected` (no std fields). -/
def driftRowA (sq : ℚ → ℚ) (f : String) (refc prodc : Column) : DriftRow :=
  [("feature", PyVal.str f),
   ("ref_mean", PyVal.num (colMean refc)),
   ("prod_mean", PyVal.num (colMean prodc)),
   ("mean_change_%", PyVal.num (meanChange refc prodc)),
   ("drift_detected", PyVal.bool (driftFlag sq refc prodc))]

/-- Column lookup `df[name]`: `none` models pandas raising `KeyError`. -/
def findCol (df : DataFrame) (name : String) : Option Column :=
  match df with
  | [] => none
  | (n, vs) :: rest => if n = name then some vs else findCol rest name

/-- Value lookup in a result dict. -/
def findVal (r : DriftRow) (key : String) : Option PyVal :=
  match r with
  | [] => none
  | (k, v) :: rest => if k = key then some v else findVal rest key

/-- The per-feature loop of `analyze_data_drift` (lines 72-92): for each
feature take reference and production statistics and append the result dict;
an absent production column raises `KeyError` naming the feature, which
aborts the loop and discards all accumulated rows. -/
def dataDriftLoopA (sq : ℚ → ℚ) (ref prod : DataFrame) :
    List String → Except String (List DriftRow)
  | [] => Except.ok []
  | f :: rest =>
    match findCol ref f with
    | none => Except.error ("KeyError: " ++ f)
    | some rc =>
      match findCol prod f with
      | none => Except.error ("KeyError: " ++ f)
      | some pc =>
        match dataDriftLoopA sq ref prod rest with
        | Except.ok recs => Except.ok (driftRowA sq f rc pc :: recs)
        | Except.error e => Except.error e

/-- `analyze_data_drift(reference_df, production_df)` of
`src/drift_analysis.py` lines 63-98, restricted to its observable content:
the sequence of per-feature result dicts, or the propagated `KeyError`. -/
def analyze_data_drift (sq : ℚ → ℚ) (ref prod : DataFrame) :
    Except String (List DriftRow) :=
  dataDriftLoopA sq ref prod (featuresOf ref)

/-- An event recording that summary statistics of one frame were computed for
a feature, used to reason about the order of computation inside the loop. -/
inductive StatEv where
  | refStats : String → StatEv
  | prodStats : String → StatEv
deriving DecidableEq, Repr

/-- The same loop as `dataDriftLoopA`, instrumented with a trace recording
each statistics computation in source order: reference mean/std first
(line 73-74), then production mean/std (line 75-76), feature by feature. -/
def dataDriftLoopTraced (sq : ℚ → ℚ) (ref prod : DataFrame) :
    List String → List StatEv → List StatEv × Except String (List DriftRow)
  | [], tr => (tr, Except.ok [])
  | f :: rest, tr =>
    match findCol ref f with
    | none => (tr, Except.error ("KeyError: " ++ f))
    | some rc =>
      let tr1 := tr ++ [StatEv.refStats f]
      match findCol prod f with
      | none => (tr1, Except.error ("KeyError: " ++ f))
      | some pc =>
        let tr2 := tr1 ++ [StatEv.prodStats f]
        match dataDriftLoopTraced sq ref prod rest tr2 with
        | (tr3, Except.ok recs) => (tr3, Except.ok (driftRowA sq f rc pc :: recs))
        | (tr3, Except.error e) => (tr3, Except.error e)

/-- The combined frame built by `prepare_data_for_nannyml`
(src/drift_analysis_nannyml.py lines 32-62): the data columns plus the
`partition` tag column added before concatenation.  The auxiliary
`identifier` and `timestamp` columns are omitted: the statistical loop and
the claims under study never read them. -/
structure CombinedDF where
  data : DataFrame
  partition : List String
deriving Repr

/-- Pandas boolean row indexing `df[mask]` on one column, with mask and
column aligned row by row. -/
def maskFilter : List Bool → Column → Column
  | true :: ms, v :: vs => v :: maskFilter ms vs
  | false :: ms, _ :: vs => maskFilter ms vs
  | _, _ => []

/-- `combined_df[combined_df['partition'] == tag]`
(src/drift_analysis_nannyml.py lines 113-116), restricted to the data
columns (the loop never reads the partition column itself). -/
def filterPartition (c : CombinedDF) (tag : String) : DataFrame :=
  let mask := c.partition.map (fun s => decide (s = tag))
  c.data.map (fun col => (col.1, maskFilter mask col.2))

/-- `src/drift_analysis_nannyml.py` line 125 (fallback loop):
`mean_change = abs((prod_mean - ref_mean) / ref_mean * 100) if ref_mean != 0 else 0`. -/
def meanChangeB (refc prodc : Column) : PFloat :=
  let rm := colMean refc
  let pm := colMean prodc
  if pyNe0 rm then pabs (pmul (pdiv (psub pm rm) rm) (some 100)) else some 0

/-- `src/drift_analysis_nannyml.py` line 126 (fallback loop):
`std_change = abs((prod_std - ref_std) / ref_std * 100) if ref_std != 0 else 0`. -/
def stdChangeB (sq : ℚ → ℚ) (refc prodc : Column) : PFloat :=
  let rs := colStd sq refc
  let ps := colStd sq prodc
  if pyNe0 rs then pabs (pmul (pdiv (psub ps rs) rs) (some 100)) else some 0

/-- `src/drift_analysis_nannyml.py` line 128 (fallback loop):
`drift_detected = mean_change > 10 or std_change > 10`. -/
def driftFlagB (sq : ℚ → ℚ) (refc prodc : Column) : Bool :=
  pyGt (meanChangeB refc prodc) 10 || pyGt (stdChangeB sq refc prodc) 10

/-- The dict literal of `src/drift_analysis_nannyml.py` lines 130-136. -/
def driftRowB (sq : ℚ → ℚ) (f : String) (refc prodc : Column) : DriftRow :=
  [("feature", PyVal.str f),
   ("ref_mean", PyVal.num (colMean refc)),
   ("prod_mean", PyVal.num (colMean prodc)),
   ("mean_change_%", PyVal.num (meanChangeB refc prodc)),
   ("drift_detected", PyVal.bool (driftFlagB sq refc prodc))]

/-- The per-feature fallback loop of `perform_statistical_drift_analysis`
(lines 118-138), over the two partition-filtered frames. -/
def statLoopB (sq : ℚ → ℚ) (refData anaData : DataFrame) :
    List String → Except String (List DriftRow)
  | [] => Except.ok []
  | f :: rest =>
    match findCol refData f with
    | none => Except.error ("KeyError: " ++ f)
    | some rc =>
      match findCol anaData f with
      | none => Except.error ("KeyError: " ++ f)
      | some pc =>
        match statLoopB sq refData anaData rest with
        | Except.ok recs => Except.ok (driftRowB sq f rc pc :: recs)
        | Except.error e => Except.error e

/-- `perform_statistical_drift_analysis(combined_df, feature_cols, target)`
of `src/drift_analysis_nannyml.py` lines 110-153 (the `target` parameter is
unused by the function body), restricted to its observable content: the
sequence of per-feature result dicts, or the propagated `KeyError`. -/
def perform_statistical_drift_analysis (sq : ℚ → ℚ) (combined : CombinedDF)
    (feature_cols : List String) (target : String) : Except String (List DriftRow) :=
  let referenceData := filterPartition combined "reference"
  let analysisData := filterPartition combined "analysis"
  statLoopB sq referenceData analysisData feature_cols

/-- The combined frame produced by `prepare_data_for_nannyml` from a
reference frame with `nref` rows and a production frame with `nprod` rows
sharing the reference schema: each reference column is concatenated with the
production column of the same name (`pd.concat`), and the partition column
tags the reference rows `reference` and the production rows `analysis`. -/
def combineFor (ref prod : DataFrame) (nref nprod : ℕ) : CombinedDF :=
  ⟨ref.map (fun col => (col.1, col.2 ++ ((findCol prod col.1).getD []))),
   List.replicate nref "reference" ++ List.replicate nprod "analysis"⟩

/-- Columns excluded before building the feature matrices in
`analyze_prediction_drift` (src/drift_analysis.py line 103). -/
def predExclude : List String := ["date", "rv1", "rv2"]

/-- The target column of `analyze_prediction_drift` (line 104). -/
def targetCol : String := "Appliances"

/-- `df.drop(columns=cols, errors='ignore')`: remove the listed columns,
silently ignoring absent ones. -/
def dropCols (df : DataFrame) (cols : List String) : DataFrame :=
  df.filter (fun col => decide (col.1 ∉ cols))

/-- A registry model as seen by the drift scripts: `predict(feature_matrix)`
returns a numeric vector, or raises (`none`). -/
abbrev Model := DataFrame → Option (List ℚ)

/-- The numeric values of a target series: `none` as soon as any entry is
NaN (sklearn raises on NaN input). -/
def seriesVals : Column → Option (List ℚ)
  | [] => some []
  | none :: _ => none
  | some v :: rest =>
    match seriesVals rest with
    | none => none
    | some vs => some (v :: vs)

/-- `sklearn.metrics.mean_squared_error(y, pred)`: `none` models the call
raising (NaN in the targets, length mismatch, or empty input). -/
def mseQ (y : Column) (p : List ℚ) : Option ℚ :=
  match seriesVals y with
  | none => none
  | some ys =>
    if ys.length = p.length then
      if ys = [] then none
      else some (((ys.zip p).map (fun q => (q.1 - q.2) ^ 2)).sum / (ys.length : ℚ))
    else none

/-- `sklearn.metrics.mean_absolute_error(y, pred)`, same failure modes. -/
def maeQ (y : Column) (p : List ℚ) : Option ℚ :=
  match seriesVals y with
  | none => none
  | some ys =>
    if ys.length = p.length then
      if ys = [] then none
      else some (((ys.zip p).map (fun q => |q.1 - q.2|)).sum / (ys.length : ℚ))
    else none

/-- The value `1 - ss_res / ss_tot` of `sklearn.metrics.r2_score`, with the
sklearn convention for a constant target (`1` when the residuals are also
zero, else `0`). -/
def r2val (sstot ssres : ℚ) : ℚ :=
  if sstot = 0 then (if ssres = 0 then 1 else 0) else 1 - ssres / sstot

/-- `sklearn.metrics.r2_score(y, pred)`: `1 - ss_res / ss_tot` via `r2val`;
same failure modes as the other metrics. -/
def r2Q (y : Column) (p : List ℚ) : Option ℚ :=
  match seriesVals y with
  | none => none
  | some ys =>
    if ys.length = p.length then
      if ys = [] then none
      else
        let m := ys.sum / (ys.length : ℚ)
        let sstot := (ys.map (fun v => (v - m) ^ 2)).sum
        let ssres := ((ys.zip p).map (fun q => (q.1 - q.2) ^ 2)).sum
        some (r2val sstot ssres)
    else none

/-- One per-model result: the dict appended at
`src/drift_analysis.py` lines 131-140. -/
structure PredRecord where
  model : String
  ref_rmse : ℚ
  prod_rmse : ℚ
  rmse_change : ℚ
  ref_mae : ℚ
  prod_mae : ℚ
  ref_r2 : ℚ
  prod_r2 : ℚ
deriving DecidableEq, Repr

/-- The body of the `try` block of `analyze_prediction_drift`
(src/drift_analysis.py lines 114-140), in source order: predict on the
reference data, compute RMSE/MAE/R² there, predict on the production data,
compute RMSE/MAE/R² there, compute the zero-guarded RMSE change, and build
the result dict.  `none` means some step raised. -/
def processModel (sq : ℚ → ℚ) (Xr : DataFrame) (yr : Column)
    (Xp : DataFrame) (yp : Column) (nm : String) (m : Model) : Option PredRecord := do
  let predR ← m Xr
  let mseR ← mseQ yr predR
  let refRmse := sq mseR
  let refMae ← maeQ yr predR
  let refR2 ← r2Q yr predR
  let predP ← m Xp
  let mseP ← mseQ yp predP
  let prodRmse := sq mseP
  let prodMae ← maeQ yp predP
  let prodR2 ← r2Q yp predP
  let change := if refRmse ≠ 0 then |(prodRmse - refRmse) / refRmse * 100| else 0
  return ⟨nm, refRmse, prodRmse, change, refMae, prodMae, refR2, prodR2⟩

/-- One iteration of the model loop: `try`-body success appends the result
dict; on failure the accumulated results are untouched and the
`[ERROR] Failed to analyze ...` diagnostic is recorded (the success-path
`[OK]` print is omitted: the claims concern the failure diagnostics). -/
def stepModel (sq : ℚ → ℚ) (Xr : DataFrame) (yr : Column) (Xp : DataFrame)
    (yp : Column) (acc : List PredRecord × List String) (entry : String × Model) :
    List PredRecord × List String :=
  match processModel sq Xr yr Xp yp entry.1 entry.2 with
  | some r => (acc.1 ++ [r], acc.2)
  | none => (acc.1, acc.2 ++ ["[ERROR] Failed to analyze " ++ entry.1])

/-- `analyze_prediction_drift(models, reference_df, production_df)` of
`src/drift_analysis.py` lines 100-147: split off the target column (a
missing target column raises `KeyError` before the loop), drop the excluded
columns, then run the per-model loop collecting results and failure
diagnostics. -/
def analyze_prediction_drift (sq : ℚ → ℚ) (models : List (String × Model))
    (ref prod : DataFrame) : Except String (List PredRecord × List String) :=
  match findCol ref targetCol, findCol prod targetCol with
  | some yRef, some yProd =>
    let XRef := dropCols ref (predExclude ++ [targetCol])
    let XProd := dropCols prod (predExclude ++ [targetCol])
    Except.ok (models.foldl (stepModel sq XRef yRef XProd yProd) ([], []))
  | _, _ => Except.error ("KeyError: " ++ targetCol)

/-! ## Basic evaluation lemmas -/

lemma pyNe0_some (a : ℚ) : pyNe0 (some a) = decide (a ≠ 0) := rfl

lemma pyGt_some (a c : ℚ) : pyGt (some a) c = decide (c < a) := rfl

lemma pyGt_none (c : ℚ) : pyGt none c = false := rfl

/-- Closed form of the zero-guarded percentage change (line 79) when both
means are finite: the absolute value wraps the **whole** quotient, so the
result is `|p - r| / |r| * 100`, with the absolute value of the reference
mean in the denominator. -/
lemma meanChange_some (rc pc : Column) (r p : ℚ)
    (hr : colMean rc = some r) (hp : colMean pc = some p) :
    meanChange rc pc = some (if r = 0 then 0 else |p - r| / |r| * 100) := by
  simp only [meanChange]
  rw [hr, hp]
  by_cases h : r = 0
  · simp [pyNe0, h]
  · have hb : decide (r ≠ 0) = true := by simpa using h
    simp only [pyNe0_some, hb, if_true, psub, pdiv, if_neg h, pmul, pabs]
    rw [abs_mul, abs_div]
    norm_num

/-- Closed form of the zero-guarded std percentage change (line 80) when both
standard deviations are finite. -/
lemma stdChange_some (sq : ℚ → ℚ) (rc pc : Column) (s t : ℚ)
    (hs : colStd sq rc = some s) (ht : colStd sq pc = some t) :
    stdChange sq rc pc = some (if s = 0 then 0 else |t - s| / |s| * 100) := by
  simp only [stdChange]
  rw [hs, ht]
  by_cases h : s = 0
  · simp [pyNe0, h]
  · have hb : decide (s ≠ 0) = true := by simpa using h
    simp only [pyNe0_some, hb, if_true, psub, pdiv, if_neg h, pmul, pabs]
    rw [abs_mul, abs_div]
    norm_num

/-! ## C1: strict 10% threshold for the drift flag -/

/-- C1: For every feature compared by the feature-drift calculator, when the
mean and std percentage changes are finite numbers, the `drift_detected`
entry of the emitted record is true iff the mean change strictly exceeds 10
or the std change strictly exceeds 10; a change of exactly 10 is not drift
(strict `>`). -/
theorem c1_drift_flag_strict_threshold (sq : ℚ → ℚ) (f : String) (rc pc : Column)
    (mc sc : ℚ) (hm : meanChange rc pc = some mc) (hs : stdChange sq rc pc = some sc) :
    findVal (driftRowA sq f rc pc) "drift_detected" = some (PyVal.bool true) ↔
      (10 < mc ∨ 10 < sc) := by
  have hv : findVal (driftRowA sq f rc pc) "drift_detected" =
      some (PyVal.bool (driftFlag sq rc pc)) := rfl
  rw [hv, driftFlag, hm, hs, pyGt_some, pyGt_some]
  simp

/-- Witness for C1 at the threshold boundary: reference column with mean 10
and std 0, production column with mean 11 and std 0, so the mean change is
exactly 10% and the std change 0% — and the drift flag is false. -/
theorem c1_witness :
    meanChange [some 10, some 10] [some 11, some 11] = some 10 ∧
    stdChange id [some 10, some 10] [some 11, some 11] = some 0 ∧
    findVal (driftRowA id "T1" [some 10, some 10] [some 11, some 11])
      "drift_detected" = some (PyVal.bool false) := by
  have hm : meanChange [some 10, some 10] [some 11, some 11] = some 10 := by
    rw [meanChange_some _ _ 10 11 (by simp [colMean] <;> norm_num) (by simp [colMean] <;> norm_num)]
    norm_num
  have hs : stdChange id [some 10, some 10] [some 11, some 11] = some 0 := by
    rw [stdChange_some id _ _ 0 0 (by simp [colStd, sampleVar] <;> norm_num)
      (by simp [colStd, sampleVar] <;> norm_num)]
    norm_num
  have hflag := c1_drift_flag_strict_threshold id "T1" _ _ 10 0 hm hs
  refine ⟨hm, hs, ?_⟩
  have hv : findVal (driftRowA id "T1" [some 10, some 10] [some 11, some 11])
      "drift_detected" =
      some (PyVal.bool (driftFlag id [some 10, some 10] [some 11, some 11])) := rfl
  cases hb : driftFlag id [some 10, some 10] [some 11, some 11] with
  | false => rw [hv, hb]
  | true => exact absurd (hflag.mp (by rw [hv, hb])) (by norm_num)

/-! ## C2: the percentage-change formula -/

/-- C2 counterexample: with a reference column of mean `-10` and a production
column of mean `0`, the code computes `mean_change = 100` (the absolute value
wraps the whole quotient), while the claimed formula
`|prod_mean - ref_mean| / ref_mean * 100` evaluates to `-100`; the claim's
equality fails for a negative reference mean. -/
theorem c2_counterexample :
    meanChange [some (-10)] [some 0] = some 100 ∧
    |(0 : ℚ) - (-10)| / (-10) * 100 = -100 ∧
    meanChange [some (-10)] [some 0] ≠ some (|(0 : ℚ) - (-10)| / (-10) * 100) := by
  have h : meanChange [some (-10)] [some 0] = some 100 := by
    rw [meanChange_some _ _ (-10) 0 (by simp [colMean] <;> norm_num) (by simp [colMean] <;> norm_num)]
    norm_num
  refine ⟨h, by norm_num, ?_⟩
  rw [h]
  norm_num

/-- C2 (amended): for every feature with finite statistics, the mean
percentage change equals `|prod_mean - ref_mean| / |ref_mean| * 100` — the
absolute value of the whole quotient, i.e. with `|ref_mean|`, not `ref_mean`,
as denominator — when the reference mean is nonzero, and `0` when the
reference mean is exactly zero; the std percentage change follows the same
rule with the reference standard deviation as denominator and guard. -/
theorem c2_pct_change_zero_guard_abs (sq : ℚ → ℚ) (rc pc : Column) (r p s t : ℚ)
    (hr : colMean rc = some r) (hp : colMean pc = some p)
    (hs : colStd sq rc = some s) (ht : colStd sq pc = some t) :
    meanChange rc pc = some (if r = 0 then 0 else |p - r| / |r| * 100) ∧
    stdChange sq rc pc = some (if s = 0 then 0 else |t - s| / |s| * 100) :=
  ⟨meanChange_some rc pc r p hr hp, stdChange_some sq rc pc s t hs ht⟩

/-- Witness for C2 (amended): reference column `[2, 4]` (mean 3, sample std
`sq 2`), production column `[6, 6]` (mean 6, sample std `sq 0`), with `sq`
instantiated to the identity. -/
theorem c2_witness :
    colMean [some 2, some 4] = some 3 ∧ colStd id [some 2, some 4] = some 2 ∧
    colMean [some 6, some 6] = some 6 ∧ colStd id [some 6, some 6] = some 0 ∧
    meanChange [some 2, some 4] [some 6, some 6] =
      some (if (3 : ℚ) = 0 then 0 else |6 - 3| / |3| * 100) ∧
    stdChange id [some 2, some 4] [some 6, some 6] =
      some (if (2 : ℚ) = 0 then 0 else |0 - 2| / |2| * 100) := by
  have h1 : colMean [some 2, some 4] = some 3 := by simp [colMean] <;> norm_num
  have h2 : colStd id [some 2, some 4] = some 2 := by simp [colStd, sampleVar] <;> norm_num
  have h3 : colMean [some 6, some 6] = some 6 := by simp [colMean] <;> norm_num
  have h4 : colStd id [some 6, some 6] = some 0 := by simp [colStd, sampleVar] <;> norm_num
  have h5 := c2_pct_change_zero_guard_abs id _ _ 3 6 2 0 h1 h3 h2 h4
  exact ⟨h1, h2, h3, h4, h5.1, h5.2⟩

/-! ## C7: nonnegativity and monotonicity of the mean change -/

/-- C7: for every feature with nonzero (finite) reference mean, the computed
mean percentage change is a nonnegative number, and for a fixed reference
column it is monotonically non-decreasing in `|prod_mean - ref_mean|`. -/
theorem c7_mean_change_nonneg_monotone (rc pc1 pc2 : Column) (r p1 p2 : ℚ)
    (hr : colMean rc = some r) (hrne : r ≠ 0)
    (h1 : colMean pc1 = some p1) (h2 : colMean pc2 = some p2) :
    (∃ c1, meanChange rc pc1 = some c1 ∧ 0 ≤ c1) ∧
    (|p1 - r| ≤ |p2 - r| →
      ∃ c1 c2, meanChange rc pc1 = some c1 ∧ meanChange rc pc2 = some c2 ∧ c1 ≤ c2) := by
  have e1 := meanChange_some rc pc1 r p1 hr h1
  have e2 := meanChange_some rc pc2 r p2 hr h2
  rw [if_neg hrne] at e1 e2
  have habs : (0 : ℚ) < |r| := abs_pos.mpr hrne
  constructor
  · exact ⟨_, e1, by positivity⟩
  · intro hle
    refine ⟨_, _, e1, e2, ?_⟩
    have hdiv : |p1 - r| / |r| ≤ |p2 - r| / |r| := by
      exact div_le_div_of_nonneg_right hle habs.le
    exact mul_le_mul_of_nonneg_right hdiv (by norm_num)

/-- Witness for C7: reference mean 10, production means 11 and 13. -/
theorem c7_witness :
    colMean [some 10] = some 10 ∧ (10 : ℚ) ≠ 0 ∧
    colMean [some 11] = some 11 ∧ colMean [some 13] = some 13 ∧
    (∃ c1, meanChange [some 10] [some 11] = some c1 ∧ 0 ≤ c1) ∧
    (∃ c1 c2, meanChange [some 10] [some 11] = some c1 ∧
      meanChange [some 10] [some 13] = some c2 ∧ c1 ≤ c2) := by
  have h1 : colMean [some 10] = some 10 := by simp [colMean] <;> norm_num
  have h2 : colMean [some 11] = some 11 := by simp [colMean] <;> norm_num
  have h3 : colMean [some 13] = some 13 := by simp [colMean] <;> norm_num
  have h := c7_mean_change_nonneg_monotone [some 10] [some 11] [some 13]
    10 11 13 h1 (by norm_num) h2 h3
  exact ⟨h1, by norm_num, h2, h3, h.1, h.2 (by norm_num)⟩

/-! ## C4: empty datasets are not guarded -/

/-- C4 (code behaviour at the failing input): with a reference dataset that
has the feature column `T1` but zero rows, `analyze_data_drift` raises no
input-validation error: it returns a result record for `T1` whose reference
mean and mean percentage change are NaN (`none`) and whose drift flag is
false.  This contradicts the claim that empty inputs are detected before
computing statistics and reported as a fatal error: the NaN statistics are
emitted silently. -/
theorem c4_empty_dataset_emits_nan :
    analyze_data_drift (fun _ => 0) [("T1", [])] [("T1", [some 5])] =
      Except.ok [[("feature", PyVal.str "T1"),
        ("ref_mean", PyVal.num none),
        ("prod_mean", PyVal.num (some 5)),
        ("mean_change_%", PyVal.num none),
        ("drift_detected", PyVal.bool false)]] := by
  have h0 : analyze_data_drift (fun _ => 0) [("T1", [])] [("T1", [some 5])] =
      Except.ok [driftRowA (fun _ => 0) "T1" [] [some 5]] := rfl
  have hc0 : colMean [] = none := rfl
  have hc : colMean [some 5] = some 5 := by simp [colMean]
  have hm : meanChange [] [some 5] = none := rfl
  have hflag : driftFlag (fun _ => 0) [] [some 5] = false := rfl
  rw [h0]
  simp only [driftRowA, hc0, hc, hm, hflag]

/-! ## C6: identical inputs -/

/-- C6 counterexample: with identical one-row reference and production
datasets, the sample standard deviation of the single-value column is NaN
(pandas `std` with `ddof=1`), so the std percentage change is NaN — not `0`
as the claim requires.  (The mean change is `0` and the flag is false, so
only the std part of the claim fails.) -/
theorem c6_counterexample :
    analyze_data_drift (fun _ => 0) [("T1", [some 5])] [("T1", [some 5])] =
      Except.ok [driftRowA (fun _ => 0) "T1" [some 5] [some 5]] ∧
    stdChange (fun _ => 0) [some 5] [some 5] = none ∧
    (none : PFloat) ≠ some 0 := by
  refine ⟨rfl, rfl, by simp⟩

/-! ## Loop characterization lemmas -/

lemma findCol_isSome_of_mem_keys (df : DataFrame) (f : String)
    (h : f ∈ df.map Prod.fst) : ∃ vs, findCol df f = some vs := by
  induction df with
  | nil => simp at h
  | cons c rest ih =>
    by_cases hc : c.1 = f
    · exact ⟨c.2, by simp [findCol, hc]⟩
    · have hm : f ∈ rest.map Prod.fst := by
        rcases List.mem_cons.mp h with h1 | h1
        · exact absurd h1.symm hc
        · exact h1
      obtain ⟨vs, hvs⟩ := ih hm
      exact ⟨vs, by simp [findCol, hc, hvs]⟩

lemma mem_keys_of_mem_featuresOf (df : DataFrame) (f : String)
    (h : f ∈ featuresOf df) : f ∈ df.map Prod.fst :=
  (List.mem_filter.mp h).1

/-- Every row of a successful run of the per-feature loop is the record
`driftRowA` of one of the iterated features and its two looked-up columns. -/
lemma dataDriftLoopA_ok_mem (sq : ℚ → ℚ) (ref prod : DataFrame)
    (fs : List String) (recs : List DriftRow)
    (hok : dataDriftLoopA sq ref prod fs = Except.ok recs) :
    ∀ r ∈ recs, ∃ f rc pc, f ∈ fs ∧ findCol ref f = some rc ∧
      findCol prod f = some pc ∧ r = driftRowA sq f rc pc := by
  induction fs generalizing recs with
  | nil =>
    simp only [dataDriftLoopA, Except.ok.injEq] at hok
    subst hok
    intro r hr
    simp at hr
  | cons f rest ih =>
    intro r hr
    rw [dataDriftLoopA] at hok
    cases hfr : findCol ref f with
    | none => rw [hfr] at hok; exact absurd hok (by simp)
    | some rc =>
      rw [hfr] at hok
      cases hfp : findCol prod f with
      | none => rw [hfp] at hok; exact absurd hok (by simp)
      | some pc =>
        rw [hfp] at hok
        cases hrec : dataDriftLoopA sq ref prod rest with
        | error e => rw [hrec] at hok; exact absurd hok (by simp)
        | ok recs' =>
          rw [hrec] at hok
          have hr2 : recs = driftRowA sq f rc pc :: recs' := by
            simpa using hok.symm
          subst hr2
          rcases List.mem_cons.mp hr with h1 | h1
          · exact ⟨f, rc, pc, List.mem_cons_self f rest, hfr, hfp, h1⟩
          · obtain ⟨g, rc2, pc2, hg, h3, h4, h5⟩ := ih recs' hrec r h1
            exact ⟨g, rc2, pc2, List.mem_cons_of_mem f hg, h3, h4, h5⟩

/-- When every iterated feature is present in both frames, the per-feature
loop succeeds. -/
lemma dataDriftLoopA_ok_of_lookups (sq : ℚ → ℚ) (ref prod : DataFrame)
    (fs : List String)
    (h : ∀ f ∈ fs, (∃ rc, findCol ref f = some rc) ∧ ∃ pc, findCol prod f = some pc) :
    ∃ recs, dataDriftLoopA sq ref prod fs = Except.ok recs := by
  induction fs with
  | nil => exact ⟨[], rfl⟩
  | cons f rest ih =>
    obtain ⟨⟨rc, hrc⟩, ⟨pc, hpc⟩⟩ := h f (List.mem_cons_self f rest)
    obtain ⟨recs, hrecs⟩ := ih (fun g hg => h g (List.mem_cons_of_mem f hg))
    exact ⟨driftRowA sq f rc pc :: recs, by rw [dataDriftLoopA, hrc, hpc, hrecs]⟩

lemma findVal_feature (sq : ℚ → ℚ) (f : String) (rc pc : Column) :
    findVal (driftRowA sq f rc pc) "feature" = some (PyVal.str f) := rfl

lemma findVal_ref_mean (sq : ℚ → ℚ) (f : String) (rc pc : Column) :
    findVal (driftRowA sq f rc pc) "ref_mean" = some (PyVal.num (colMean rc)) := rfl

lemma findVal_prod_mean (sq : ℚ → ℚ) (f : String) (rc pc : Column) :
    findVal (driftRowA sq f rc pc) "prod_mean" = some (PyVal.num (colMean pc)) := rfl

lemma findVal_mean_change (sq : ℚ → ℚ) (f : String) (rc pc : Column) :
    findVal (driftRowA sq f rc pc) "mean_change_%" =
      some (PyVal.num (meanChange rc pc)) := rfl

lemma findVal_drift_detected (sq : ℚ → ℚ) (f : String) (rc pc : Column) :
    findVal (driftRowA sq f rc pc) "drift_detected" =
      some (PyVal.bool (driftFlag sq rc pc)) := rfl

lemma findVal_ref_std (sq : ℚ → ℚ) (f : String) (rc pc : Column) :
    findVal (driftRowA sq f rc pc) "ref_std" = none := rfl

lemma findVal_prod_std (sq : ℚ → ℚ) (f : String) (rc pc : Column) :
    findVal (driftRowA sq f rc pc) "prod_std" = none := rfl

/-! ## Self-comparison lemmas -/

lemma colMean_some_of_nonempty (c : Column) (h : c.filterMap id ≠ []) :
    ∃ m, colMean c = some m := by
  simp only [colMean]
  rw [if_neg (by simpa using h)]
  exact ⟨_, rfl⟩

lemma meanChange_self (c : Column) (h : c.filterMap id ≠ []) :
    meanChange c c = some 0 := by
  obtain ⟨m, hm⟩ := colMean_some_of_nonempty c h
  rw [meanChange_some c c m m hm hm]
  by_cases hz : m = 0
  · simp [hz]
  · simp [hz]

lemma colStd_some_of_two (sq : ℚ → ℚ) (c : Column)
    (h : 2 ≤ (c.filterMap id).length) : ∃ s, colStd sq c = some s := by
  simp only [colStd]
  rw [if_neg (by omega)]
  exact ⟨_, rfl⟩

lemma stdChange_self (sq : ℚ → ℚ) (c : Column)
    (h : 2 ≤ (c.filterMap id).length) : stdChange sq c c = some 0 := by
  obtain ⟨s, hs⟩ := colStd_some_of_two sq c h
  rw [stdChange_some sq c c s s hs hs]
  by_cases hz : s = 0
  · simp [hz]
  · simp [hz]

lemma driftFlag_self (sq : ℚ → ℚ) (c : Column)
    (h : 2 ≤ (c.filterMap id).length) : driftFlag sq c c = false := by
  have hne : c.filterMap id ≠ [] := by
    intro he
    rw [he] at h
    simp at h
  rw [driftFlag, meanChange_self c hne, stdChange_self sq c h]
  simp [pyGt_some]

/-- C6 (amended): if the reference and production inputs to
`analyze_data_drift` are identical and every feature column holds at least
two non-missing values (so that no pandas mean/std degenerates to NaN), then
the computation succeeds and, for every feature, the mean percentage change
is 0, the std percentage change is 0, and the drift flag is false. -/
theorem c6_identical_datasets_no_drift (sq : ℚ → ℚ) (ref : DataFrame)
    (h2 : ∀ f vs, findCol ref f = some vs → 2 ≤ (vs.filterMap id).length) :
    ∃ recs, analyze_data_drift sq ref ref = Except.ok recs ∧
      (∀ r ∈ recs,
        findVal r "mean_change_%" = some (PyVal.num (some 0)) ∧
        findVal r "drift_detected" = some (PyVal.bool false)) ∧
      (∀ f ∈ featuresOf ref, ∀ vs, findCol ref f = some vs →
        meanChange vs vs = some 0 ∧ stdChange sq vs vs = some 0) := by
  have hlook : ∀ f ∈ featuresOf ref,
      (∃ rc, findCol ref f = some rc) ∧ ∃ pc, findCol ref f = some pc := by
    intro f hf
    obtain ⟨vs, hvs⟩ :=
      findCol_isSome_of_mem_keys ref f (mem_keys_of_mem_featuresOf ref f hf)
    exact ⟨⟨vs, hvs⟩, ⟨vs, hvs⟩⟩
  obtain ⟨recs, hrecs⟩ := dataDriftLoopA_ok_of_lookups sq ref ref (featuresOf ref) hlook
  refine ⟨recs, hrecs, ?_, ?_⟩
  · intro r hr
    obtain ⟨f, rc, pc, hf, hrc, hpc, hrow⟩ :=
      dataDriftLoopA_ok_mem sq ref ref (featuresOf ref) recs hrecs r hr
    have hcc : rc = pc := by
      have := hrc.symm.trans hpc
      simpa using this
    subst hcc
    subst hrow
    have hlen := h2 f rc hrc
    constructor
    · rw [findVal_mean_change, meanChange_self rc (by
        intro he
        rw [he] at hlen
        simp at hlen)]
    · rw [findVal_drift_detected, driftFlag_self sq rc hlen]
  · intro f hf vs hvs
    have hlen := h2 f vs hvs
    refine ⟨meanChange_self vs ?_, stdChange_self sq vs hlen⟩
    intro he
    rw [he] at hlen
    simp at hlen

/-- Witness for C6 (amended) on a one-feature, two-row dataset. -/
theorem c6_witness :
    (∀ f vs, findCol [("T1", [some 1, some 3])] f = some vs →
      2 ≤ (vs.filterMap id).length) ∧
    (∃ recs, analyze_data_drift id [("T1", [some 1, some 3])]
        [("T1", [some 1, some 3])] = Except.ok recs ∧
      (∀ r ∈ recs,
        findVal r "mean_change_%" = some (PyVal.num (some 0)) ∧
        findVal r "drift_detected" = some (PyVal.bool false)) ∧
      (∀ f ∈ featuresOf [("T1", [some 1, some 3])],
        ∀ vs, findCol [("T1", [some 1, some 3])] f = some vs →
        meanChange vs vs = some 0 ∧ stdChange id vs vs = some 0)) := by
  have hhyp : ∀ f vs, findCol [("T1", [some 1, some 3])] f = some vs →
      2 ≤ (vs.filterMap id).length := by
    intro f vs h
    by_cases hf : "T1" = f
    · rw [findCol, if_pos hf] at h
      have : vs = [some 1, some 3] := by simpa using h.symm
      subst this
      decide
    · rw [findCol, if_neg hf] at h
      exact absurd h (by rw [findCol]; simp)
  exact ⟨hhyp, c6_identical_datasets_no_drift id [("T1", [some 1, some 3])] hhyp⟩

/-! ## C8: fields of the emitted record -/

/-- C8 counterexample: a concrete run of `analyze_data_drift` produces a
record that has no `ref_std` or `prod_std` entry — the dict built at
src/drift_analysis.py lines 84-90 stores only the feature name, the two
means, the mean percentage change and the drift flag, so the claim that each
record contains the reference and production standard deviations is false. -/
theorem c8_counterexample :
    analyze_data_drift (fun _ => 0) [("T1", [some 1, some 3])]
        [("T1", [some 2, some 2])] =
      Except.ok [driftRowA (fun _ => 0) "T1" [some 1, some 3] [some 2, some 2]] ∧
    findVal (driftRowA (fun _ => 0) "T1" [some 1, some 3] [some 2, some 2])
      "ref_std" = none ∧
    findVal (driftRowA (fun _ => 0) "T1" [some 1, some 3] [some 2, some 2])
      "prod_std" = none :=
  ⟨rfl, rfl, rfl⟩

/-- C8 (amended): every record produced by the feature-drift calculator
contains exactly the feature name, the reference mean, the production mean,
the mean percentage change and the drift flag — and no reference or
production standard deviation entries. -/
theorem c8_record_fields (sq : ℚ → ℚ) (ref prod : DataFrame)
    (recs : List DriftRow)
    (hok : analyze_data_drift sq ref prod = Except.ok recs) :
    ∀ r ∈ recs, ∃ f rc pc, f ∈ featuresOf ref ∧ findCol ref f = some rc ∧
      findCol prod f = some pc ∧
      findVal r "feature" = some (PyVal.str f) ∧
      findVal r "ref_mean" = some (PyVal.num (colMean rc)) ∧
      findVal r "prod_mean" = some (PyVal.num (colMean pc)) ∧
      findVal r "mean_change_%" = some (PyVal.num (meanChange rc pc)) ∧
      findVal r "drift_detected" = some (PyVal.bool (driftFlag sq rc pc)) ∧
      findVal r "ref_std" = none ∧ findVal r "prod_std" = none := by
  intro r hr
  obtain ⟨f, rc, pc, hf, hrc, hpc, hrow⟩ :=
    dataDriftLoopA_ok_mem sq ref prod (featuresOf ref) recs hok r hr
  subst hrow
  exact ⟨f, rc, pc, hf, hrc, hpc, findVal_feature sq f rc pc,
    findVal_ref_mean sq f rc pc, findVal_prod_mean sq f rc pc,
    findVal_mean_change sq f rc pc, findVal_drift_detected sq f rc pc,
    findVal_ref_std sq f rc pc, findVal_prod_std sq f rc pc⟩

/-- Witness for C8 (amended) on a concrete one-feature run. -/
theorem c8_witness :
    analyze_data_drift (fun _ => 0) [("T1", [some 1, some 3])]
        [("T1", [some 2, some 2])] =
      Except.ok [driftRowA (fun _ => 0) "T1" [some 1, some 3] [some 2, some 2]] ∧
    ∃ f rc pc, f ∈ featuresOf [("T1", [some 1, some 3])] ∧
      findCol [("T1", [some 1, some 3])] f = some rc ∧
      findCol [("T1", [some 2, some 2])] f = some pc ∧
      findVal (driftRowA (fun _ => 0) "T1" [some 1, some 3] [some 2, some 2])
        "feature" = some (PyVal.str f) ∧
      findVal (driftRowA (fun _ => 0) "T1" [some 1, some 3] [some 2, some 2])
        "ref_mean" = some (PyVal.num (colMean rc)) ∧
      findVal (driftRowA (fun _ => 0) "T1" [some 1, some 3] [some 2, some 2])
        "prod_mean" = some (PyVal.num (colMean pc)) ∧
      findVal (driftRowA (fun _ => 0) "T1" [some 1, some 3] [some 2, some 2])
        "mean_change_%" = some (PyVal.num (meanChange rc pc)) ∧
      findVal (driftRowA (fun _ => 0) "T1" [some 1, some 3] [some 2, some 2])
        "drift_detected" = some (PyVal.bool (driftFlag (fun _ => 0) rc pc)) ∧
      findVal (driftRowA (fun _ => 0) "T1" [some 1, some 3] [some 2, some 2])
        "ref_std" = none ∧
      findVal (driftRowA (fun _ => 0) "T1" [some 1, some 3] [some 2, some 2])
        "prod_std" = none :=
  ⟨rfl, c8_record_fields (fun _ => 0) [("T1", [some 1, some 3])]
    [("T1", [some 2, some 2])]
    [driftRowA (fun _ => 0) "T1" [some 1, some 3] [some 2, some 2]] rfl
    (driftRowA (fun _ => 0) "T1" [some 1, some 3] [some 2, some 2])
    (List.mem_singleton.mpr rfl)⟩

/-! ## C5: missing production column -/

/-- The instrumented loop computes the same observable result as the plain
loop: the trace only records the order of statistic computations. -/
lemma dataDriftLoopTraced_result (sq : ℚ → ℚ) (ref prod : DataFrame)
    (fs : List String) (tr : List StatEv) :
    (dataDriftLoopTraced sq ref prod fs tr).2 = dataDriftLoopA sq ref prod fs := by
  induction fs generalizing tr with
  | nil => rfl
  | cons f rest ih =>
    rw [dataDriftLoopTraced, dataDriftLoopA]
    cases hfr : findCol ref f with
    | none => rfl
    | some rc =>
      cases hfp : findCol prod f with
      | none => rfl
      | some pc =>
        dsimp only
        rcases hpair : dataDriftLoopTraced sq ref prod rest
            ((tr ++ [StatEv.refStats f]) ++ [StatEv.prodStats f]) with ⟨tr3, res⟩
        have hres : res = dataDriftLoopA sq ref prod rest := by
          have h := ih ((tr ++ [StatEv.refStats f]) ++ [StatEv.prodStats f])
          rw [hpair] at h
          exact h
        rw [← hres]
        cases res with
        | ok recs => rfl
        | error e => rfl

/-- If some iterated feature is missing from the production frame (and all
are present in the reference frame), the loop fails with a `KeyError` naming
a missing feature. -/
lemma dataDriftLoopA_error_of_missing (sq : ℚ → ℚ) (ref prod : DataFrame)
    (fs : List String) (href : ∀ g ∈ fs, ∃ vs, findCol ref g = some vs)
    (f : String) (hf : f ∈ fs) (hmiss : findCol prod f = none) :
    ∃ g, g ∈ fs ∧ findCol prod g = none ∧
      dataDriftLoopA sq ref prod fs = Except.error ("KeyError: " ++ g) := by
  induction fs with
  | nil => simp at hf
  | cons a rest ih =>
    obtain ⟨vs, hvs⟩ := href a (List.mem_cons_self a rest)
    cases hpa : findCol prod a with
    | none =>
      refine ⟨a, List.mem_cons_self a rest, hpa, ?_⟩
      rw [dataDriftLoopA, hvs, hpa]
    | some pc =>
      have hfrest : f ∈ rest := by
        rcases List.mem_cons.mp hf with h1 | h1
        · subst h1
          rw [hmiss] at hpa
          exact absurd hpa (by simp)
        · exact h1
      obtain ⟨g, hg, hgnone, herr⟩ :=
        ih (fun g hgr => href g (List.mem_cons_of_mem a hgr)) hfrest
      refine ⟨g, List.mem_cons_of_mem a hg, hgnone, ?_⟩
      rw [dataDriftLoopA, hvs, hpa, herr]

/-- C5 counterexample: with reference features `T1, T2` and a production
frame lacking `T2`, the loop fails with `KeyError: T2` — but only when it
reaches `T2`: the instrumented run shows that the statistics of `T1` (both
frames) and the reference statistics of `T2` are computed **before** the
failure, so the code does not validate schema compatibility before computing
any statistics, contrary to the claim. -/
theorem c5_counterexample :
    dataDriftLoopTraced (fun _ => 0)
      [("T1", [some 1, some 2]), ("T2", [some 3, some 4])]
      [("T1", [some 1, some 2])]
      (featuresOf [("T1", [some 1, some 2]), ("T2", [some 3, some 4])]) [] =
      ([StatEv.refStats "T1", StatEv.prodStats "T1", StatEv.refStats "T2"],
       Except.error ("KeyError: " ++ "T2")) ∧
    StatEv.refStats "T1" ∈
      [StatEv.refStats "T1", StatEv.prodStats "T1", StatEv.refStats "T2"] ∧
    StatEv.prodStats "T1" ∈
      [StatEv.refStats "T1", StatEv.prodStats "T1", StatEv.refStats "T2"] :=
  ⟨rfl, by decide, by decide⟩

/-- C5 (amended): if the production frame is missing a feature column
present among the reference features, `analyze_data_drift` fails with a
`KeyError` naming a missing feature column once that feature's comparison is
reached, and returns no result records at all (so no degenerate comparison
is emitted); it does not, however, validate the schema before computing
statistics of earlier features. -/
theorem c5_missing_column_keyerror (sq : ℚ → ℚ) (ref prod : DataFrame)
    (f : String) (hf : f ∈ featuresOf ref) (hmiss : findCol prod f = none) :
    (∃ g, g ∈ featuresOf ref ∧ findCol prod g = none ∧
      analyze_data_drift sq ref prod = Except.error ("KeyError: " ++ g)) ∧
    ∀ recs, analyze_data_drift sq ref prod ≠ Except.ok recs := by
  have href : ∀ g ∈ featuresOf ref, ∃ vs, findCol ref g = some vs := fun g hg =>
    findCol_isSome_of_mem_keys ref g (mem_keys_of_mem_featuresOf ref g hg)
  obtain ⟨g, hg, hgnone, herr⟩ :=
    dataDriftLoopA_error_of_missing sq ref prod (featuresOf ref) href f hf hmiss
  refine ⟨⟨g, hg, hgnone, herr⟩, ?_⟩
  intro recs hok
  rw [analyze_data_drift] at hok
  rw [herr] at hok
  exact absurd hok (by simp)

/-- Witness for C5 (amended): production missing `T2`. -/
theorem c5_witness :
    "T2" ∈ featuresOf [("T1", [some 1, some 2]), ("T2", [some 3, some 4])] ∧
    findCol [("T1", [some 1, some 2])] "T2" = none ∧
    ((∃ g, g ∈ featuresOf [("T1", [some 1, some 2]), ("T2", [some 3, some 4])] ∧
      findCol [("T1", [some 1, some 2])] g = none ∧
      analyze_data_drift id [("T1", [some 1, some 2]), ("T2", [some 3, some 4])]
        [("T1", [some 1, some 2])] = Except.error ("KeyError: " ++ g)) ∧
    ∀ recs, analyze_data_drift id
      [("T1", [some 1, some 2]), ("T2", [some 3, some 4])]
      [("T1", [some 1, some 2])] ≠ Except.ok recs) :=
  ⟨by decide, rfl,
    c5_missing_column_keyerror id
      [("T1", [some 1, some 2]), ("T2", [some 3, some 4])]
      [("T1", [some 1, some 2])] "T2" (by decide) rfl⟩

/-! ## C3 / C10: per-model failure isolation in the prediction-drift loop -/

/-- The model loop is a fold of `stepModel`; its result components are the
successful records and the failure diagnostics, in model order. -/
lemma predLoop_eq (sq : ℚ → ℚ) (Xr : DataFrame) (yr : Column) (Xp : DataFrame)
    (yp : Column) (models : List (String × Model))
    (acc : List PredRecord × List String) :
    models.foldl (stepModel sq Xr yr Xp yp) acc =
      (acc.1 ++ models.filterMap (fun e => processModel sq Xr yr Xp yp e.1 e.2),
       acc.2 ++ models.filterMap (fun e =>
         match processModel sq Xr yr Xp yp e.1 e.2 with
         | some _ => none
         | none => some ("[ERROR] Failed to analyze " ++ e.1))) := by
  induction models generalizing acc with
  | nil => simp
  | cons e rest ih =>
    rw [List.foldl_cons, ih]
    cases hp : processModel sq Xr yr Xp yp e.1 e.2 with
    | some r => simp [stepModel, hp]
    | none => simp [stepModel, hp]

/-- Unpacking a successful `try`-body run: every step succeeded and the
record is assembled from the step results. -/
lemma processModel_some_elim (sq : ℚ → ℚ) (Xr : DataFrame) (yr : Column)
    (Xp : DataFrame) (yp : Column) (nm : String) (m : Model) (r : PredRecord)
    (h : processModel sq Xr yr Xp yp nm m = some r) :
    ∃ predR mseR maeR r2R predP mseP maeP r2P,
      m Xr = some predR ∧ mseQ yr predR = some mseR ∧ maeQ yr predR = some maeR ∧
      r2Q yr predR = some r2R ∧ m Xp = some predP ∧ mseQ yp predP = some mseP ∧
      maeQ yp predP = some maeP ∧ r2Q yp predP = some r2P ∧
      r = ⟨nm, sq mseR, sq mseP,
        if sq mseR ≠ 0 then |(sq mseP - sq mseR) / sq mseR * 100| else 0,
        maeR, maeP, r2R, r2P⟩ := by
  simp only [processModel, bind, Option.bind_eq_some, Option.pure_def,
    Option.some.injEq] at h
  obtain ⟨predR, hpredR, mseR, hmseR, maeR, hmaeR, r2R, hr2R, predP, hpredP,
    mseP, hmseP, maeP, hmaeP, r2P, hr2P, hrec⟩ := h
  exact ⟨predR, mseR, maeR, r2R, predP, mseP, maeP, r2P, hpredR, hmseR, hmaeR,
    hr2R, hpredP, hmseP, hmaeP, hr2P, hrec.symm⟩

/-- The model name stored in a successful record is the loop's model name. -/
lemma processModel_some_model (sq : ℚ → ℚ) (Xr : DataFrame) (yr : Column)
    (Xp : DataFrame) (yp : Column) (nm : String) (m : Model) (r : PredRecord)
    (h : processModel sq Xr yr Xp yp nm m = some r) : r.model = nm := by
  obtain ⟨_, _, _, _, _, _, _, _, _, _, _, _, _, _, _, _, hrec⟩ :=
    processModel_some_elim sq Xr yr Xp yp nm m r h
  rw [hrec]

/-- When the target column is present in both frames, the computation returns
the fold of the model loop. -/
lemma analyze_prediction_drift_ok (sq : ℚ → ℚ) (models : List (String × Model))
    (ref prod : DataFrame) (yr yp : Column)
    (hyr : findCol ref targetCol = some yr)
    (hyp2 : findCol prod targetCol = some yp) :
    analyze_prediction_drift sq models ref prod =
      Except.ok (models.foldl (stepModel sq
        (dropCols ref (predExclude ++ [targetCol])) yr
        (dropCols prod (predExclude ++ [targetCol])) yp) ([], [])) := by
  rw [analyze_prediction_drift, hyr, hyp2]

/-- C3: if the `try` body for one model raises (prediction or a metric step
fails), `analyze_prediction_drift` still returns a complete result list —
equal to the run without the failing model — the failing model's name is
absent from the returned records, and the `[ERROR] Failed to analyze ...`
diagnostic is emitted; the failure never aborts the computation. -/
theorem c3_model_failure_isolated (sq : ℚ → ℚ) (ref prod : DataFrame)
    (yr yp : Column) (hyr : findCol ref targetCol = some yr)
    (hyp2 : findCol prod targetCol = some yp)
    (pre post : List (String × Model)) (nm : String) (m : Model)
    (hfail : processModel sq (dropCols ref (predExclude ++ [targetCol])) yr
      (dropCols prod (predExclude ++ [targetCol])) yp nm m = none)
    (hname : nm ∉ (pre ++ post).map Prod.fst) :
    ∃ recs diags recs2 diags2,
      analyze_prediction_drift sq (pre ++ (nm, m) :: post) ref prod =
        Except.ok (recs, diags) ∧
      analyze_prediction_drift sq (pre ++ post) ref prod =
        Except.ok (recs2, diags2) ∧
      recs = recs2 ∧
      ("[ERROR] Failed to analyze " ++ nm) ∈ diags ∧
      nm ∉ recs.map PredRecord.model := by
  set Xr := dropCols ref (predExclude ++ [targetCol]) with hXr
  set Xp := dropCols prod (predExclude ++ [targetCol]) with hXp
  set F := fun e : String × Model => processModel sq Xr yr Xp yp e.1 e.2 with hF
  set G := fun e : String × Model =>
    match processModel sq Xr yr Xp yp e.1 e.2 with
    | some _ => none
    | none => some ("[ERROR] Failed to analyze " ++ e.1) with hG
  have h1 := analyze_prediction_drift_ok sq (pre ++ (nm, m) :: post) ref prod yr yp hyr hyp2
  have h2 := analyze_prediction_drift_ok sq (pre ++ post) ref prod yr yp hyr hyp2
  rw [predLoop_eq] at h1 h2
  refine ⟨(pre ++ (nm, m) :: post).filterMap F, (pre ++ (nm, m) :: post).filterMap G,
    (pre ++ post).filterMap F, (pre ++ post).filterMap G, by simpa using h1,
    by simpa using h2, ?_, ?_, ?_⟩
  · rw [List.filterMap_append, List.filterMap_append, List.filterMap_cons]
    have : F (nm, m) = none := hfail
    rw [this]
  · rw [List.filterMap_append, List.filterMap_cons]
    have : G (nm, m) = some ("[ERROR] Failed to analyze " ++ nm) := by
      simp only [hG, hfail]
    rw [this]
    exact List.mem_append_right _ (List.mem_cons_self _ _)
  · intro hmem
    rw [List.mem_map] at hmem
    obtain ⟨r, hr, hrnm⟩ := hmem
    rw [List.mem_filterMap] at hr
    obtain ⟨e, he, hFe⟩ := hr
    have : r.model = e.1 := processModel_some_model sq Xr yr Xp yp e.1 e.2 r hFe
    apply hname
    rw [List.mem_map]
    rcases List.mem_append.mp he with h | h
    · exact ⟨e, List.mem_append_left _ h, by rw [← this, hrnm]⟩
    · rcases List.mem_cons.mp h with h3 | h3
      · subst h3
        have hno : F (nm, m) = none := hfail
        rw [hno] at hFe
        exact absurd hFe (by simp)
      · exact ⟨e, List.mem_append_right _ h3, by rw [← this, hrnm]⟩

/-- C10: in the model loop, a result record is appended only when the whole
`try` body for that model has succeeded — both predictions and all derived
metrics — and the appended record is assembled entirely from those succeeded
steps; if any step raises, the accumulated result list is returned exactly
as it was before that model was attempted. -/
theorem c10_append_only_on_success (sq : ℚ → ℚ) (Xr : DataFrame) (yr : Column)
    (Xp : DataFrame) (yp : Column) (acc : List PredRecord × List String)
    (nm : String) (m : Model) :
    (processModel sq Xr yr Xp yp nm m = none →
      (stepModel sq Xr yr Xp yp acc (nm, m)).1 = acc.1) ∧
    (∀ rec, processModel sq Xr yr Xp yp nm m = some rec →
      (stepModel sq Xr yr Xp yp acc (nm, m)).1 = acc.1 ++ [rec] ∧
      ∃ predR mseR maeR r2R predP mseP maeP r2P,
        m Xr = some predR ∧ mseQ yr predR = some mseR ∧ maeQ yr predR = some maeR ∧
        r2Q yr predR = some r2R ∧ m Xp = some predP ∧ mseQ yp predP = some mseP ∧
        maeQ yp predP = some maeP ∧ r2Q yp predP = some r2P ∧
        rec = ⟨nm, sq mseR, sq mseP,
          if sq mseR ≠ 0 then |(sq mseP - sq mseR) / sq mseR * 100| else 0,
          maeR, maeP, r2R, r2P⟩) := by
  constructor
  · intro h
    simp [stepModel, h]
  · intro rec h
    exact ⟨by simp [stepModel, h], processModel_some_elim sq Xr yr Xp yp nm m rec h⟩

/-- Witness for C10: a failing model leaves the accumulated results intact;
a succeeding model appends exactly its complete record. -/
theorem c10_witness :
    processModel id [] [some 1] [] [some 1] "bad2" (fun _ => none) = none ∧
    (stepModel id [] [some 1] [] [some 1]
      ([⟨"w", 0, 0, 0, 0, 0, 1, 1⟩], []) ("bad2", fun _ => none)).1 =
      [⟨"w", 0, 0, 0, 0, 0, 1, 1⟩] ∧
    processModel id [] [some 1] [] [some 1] "good2" (fun _ => some [1]) =
      some ⟨"good2", 0, 0, 0, 0, 0, 1, 1⟩ ∧
    (stepModel id [] [some 1] [] [some 1] ([], []) ("good2", fun _ => some [1])).1 =
      [] ++ [⟨"good2", 0, 0, 0, 0, 0, 1, 1⟩] := by
  have hproc : processModel id [] [some 1] [] [some 1] "good2" (fun _ => some [1]) =
      some ⟨"good2", 0, 0, 0, 0, 0, 1, 1⟩ := by
    simp [processModel, mseQ, maeQ, r2Q, r2val, seriesVals] <;> norm_num
  refine ⟨rfl, ?_, hproc, ?_⟩
  · exact (c10_append_only_on_success id [] [some 1] [] [some 1]
      ([⟨"w", 0, 0, 0, 0, 0, 1, 1⟩], []) "bad2" (fun _ => none)).1 rfl
  · exact ((c10_append_only_on_success id [] [some 1] [] [some 1]
      ([], []) "good2" (fun _ => some [1])).2 _ hproc).1

/-- Witness for C3: two models over a tiny frame, one of which raises on
prediction; the run succeeds, its records equal those of the run without the
failing model, and the diagnostic is present. -/
theorem c3_witness :
    findCol [("Appliances", [some 1, some 2])] targetCol = some [some 1, some 2] ∧
    processModel id
      (dropCols [("Appliances", [some 1, some 2])] (predExclude ++ [targetCol]))
      [some 1, some 2]
      (dropCols [("Appliances", [some 1, some 2])] (predExclude ++ [targetCol]))
      [some 1, some 2] "bad" (fun _ => none) = none ∧
    "bad" ∉ ([(("good" : String), (fun _ => some [1, 2] : Model))] ++
      ([] : List (String × Model))).map Prod.fst ∧
    ∃ recs diags recs2 diags2,
      analyze_prediction_drift id
        ([("good", (fun _ => some [1, 2] : Model))] ++ ("bad", fun _ => none) :: [])
        [("Appliances", [some 1, some 2])] [("Appliances", [some 1, some 2])] =
        Except.ok (recs, diags) ∧
      analyze_prediction_drift id
        ([("good", (fun _ => some [1, 2] : Model))] ++ [])
        [("Appliances", [some 1, some 2])] [("Appliances", [some 1, some 2])] =
        Except.ok (recs2, diags2) ∧
      recs = recs2 ∧
      ("[ERROR] Failed to analyze " ++ "bad") ∈ diags ∧
      "bad" ∉ recs.map PredRecord.model := by
  have hname : "bad" ∉ ([(("good" : String), (fun _ => some [1, 2] : Model))] ++
      ([] : List (String × Model))).map Prod.fst := by
    simp
  exact ⟨rfl, rfl, hname,
    c3_model_failure_isolated id [("Appliances", [some 1, some 2])]
      [("Appliances", [some 1, some 2])] [some 1, some 2] [some 1, some 2]
      rfl rfl [("good", fun _ => some [1, 2])] [] "bad" (fun _ => none)
      rfl hname⟩

/-! ## C9: the two per-feature loops compute the same records -/

/-- The two copy-pasted row builders agree definitionally. -/
lemma rowB_eq_rowA (sq : ℚ → ℚ) (f : String) (rc pc : Column) :
    driftRowB sq f rc pc = driftRowA sq f rc pc := rfl

lemma findCol_mapSnd (g : String → Column → Column) (df : DataFrame) (f : String) :
    findCol (df.map (fun col => (col.1, g col.1 col.2))) f =
      (findCol df f).map (g f) := by
  induction df with
  | nil => rfl
  | cons c rest ih =>
    by_cases hc : c.1 = f
    · subst hc
      rw [List.map_cons, findCol, findCol, if_pos rfl, if_pos rfl, Option.map_some']
    · rw [List.map_cons, findCol, findCol, if_neg hc, if_neg hc, ih]

lemma maskFilter_append (m1 m2 : List Bool) (v1 v2 : Column)
    (h : m1.length = v1.length) :
    maskFilter (m1 ++ m2) (v1 ++ v2) = maskFilter m1 v1 ++ maskFilter m2 v2 := by
  induction m1 generalizing v1 with
  | nil =>
    have : v1 = [] := by
      cases v1 with
      | nil => rfl
      | cons a as => simp at h
    subst this
    simp [maskFilter]
  | cons b ms ih =>
    cases v1 with
    | nil => simp at h
    | cons v vs =>
      have hlen : ms.length = vs.length := by simpa using h
      cases b with
      | true => simp [maskFilter, ih vs hlen]
      | false => simp [maskFilter, ih vs hlen]

lemma maskFilter_replicate_true (n : ℕ) (vs : Column) (h : vs.length = n) :
    maskFilter (List.replicate n true) vs = vs := by
  induction n generalizing vs with
  | zero =>
    have : vs = [] := List.length_eq_zero.mp h
    subst this
    rfl
  | succ k ih =>
    cases vs with
    | nil => simp at h
    | cons v rest =>
      rw [List.replicate_succ, maskFilter, ih rest (by simpa using h)]

lemma maskFilter_replicate_false (n : ℕ) (vs : Column) (h : vs.length = n) :
    maskFilter (List.replicate n false) vs = [] := by
  induction n generalizing vs with
  | zero =>
    have : vs = [] := List.length_eq_zero.mp h
    subst this
    rfl
  | succ k ih =>
    cases vs with
    | nil => simp at h
    | cons v rest =>
      rw [List.replicate_succ, maskFilter, ih rest (by simpa using h)]

lemma maskFilter_ref_rows (nref nprod : ℕ) (v1 v2 : Column)
    (h1 : v1.length = nref) (h2 : v2.length = nprod) :
    maskFilter (List.replicate nref true ++ List.replicate nprod false)
      (v1 ++ v2) = v1 := by
  rw [maskFilter_append _ _ _ _ (by simp [h1]),
    maskFilter_replicate_true nref v1 h1,
    maskFilter_replicate_false nprod v2 h2, List.append_nil]

lemma maskFilter_ana_rows (nref nprod : ℕ) (v1 v2 : Column)
    (h1 : v1.length = nref) (h2 : v2.length = nprod) :
    maskFilter (List.replicate nref false ++ List.replicate nprod true)
      (v1 ++ v2) = v2 := by
  rw [maskFilter_append _ _ _ _ (by simp [h1]),
    maskFilter_replicate_false nref v1 h1,
    maskFilter_replicate_true nprod v2 h2, List.nil_append]

lemma refMask (nref nprod : ℕ) :
    (List.replicate nref "reference" ++ List.replicate nprod "analysis").map
      (fun s => decide (s = "reference")) =
      List.replicate nref true ++ List.replicate nprod false := by
  have h1 : decide (("reference" : String) = "reference") = true := by decide
  have h2 : decide (("analysis" : String) = "reference") = false := by decide
  rw [List.map_append, List.map_replicate, List.map_replicate, h1, h2]

lemma anaMask (nref nprod : ℕ) :
    (List.replicate nref "reference" ++ List.replicate nprod "analysis").map
      (fun s => decide (s = "analysis")) =
      List.replicate nref false ++ List.replicate nprod true := by
  have h1 : decide (("reference" : String) = "analysis") = false := by decide
  have h2 : decide (("analysis" : String) = "analysis") = true := by decide
  rw [List.map_append, List.map_replicate, List.map_replicate, h1, h2]

lemma findCol_filterPartition (c : CombinedDF) (tag f : String) :
    findCol (filterPartition c tag) f =
      (findCol c.data f).map
        (maskFilter (c.partition.map (fun s => decide (s = tag)))) :=
  findCol_mapSnd (fun _ vs => maskFilter (c.partition.map (fun s => decide (s = tag))) vs)
    c.data f

lemma combineFor_partition (ref prod : DataFrame) (nref nprod : ℕ) :
    (combineFor ref prod nref nprod).partition =
      List.replicate nref "reference" ++ List.replicate nprod "analysis" := rfl

lemma findCol_combineFor_data (ref prod : DataFrame) (nref nprod : ℕ) (f : String) :
    findCol (combineFor ref prod nref nprod).data f =
      (findCol ref f).map (fun vs => vs ++ ((findCol prod f).getD [])) :=
  findCol_mapSnd (fun c vs => vs ++ ((findCol prod c).getD [])) ref f

/-- The fallback loop of `perform_statistical_drift_analysis` agrees with the
loop of `analyze_data_drift` whenever the two frames it reads behave like the
original reference and production frames on the iterated features. -/
lemma statLoopB_congr (sq : ℚ → ℚ) (d1 d2 ref prod : DataFrame) (fs : List String)
    (h1 : ∀ f ∈ fs, findCol d1 f = findCol ref f)
    (h2 : ∀ f ∈ fs, findCol d2 f = findCol prod f) :
    statLoopB sq d1 d2 fs = dataDriftLoopA sq ref prod fs := by
  induction fs with
  | nil => rfl
  | cons f rest ih =>
    rw [statLoopB, dataDriftLoopA, h1 f (List.mem_cons_self f rest),
      h2 f (List.mem_cons_self f rest),
      ih (fun g hg => h1 g (List.mem_cons_of_mem f hg))
         (fun g hg => h2 g (List.mem_cons_of_mem f hg))]
    rfl

/-- C9: for every pair of reference and production frames (uniform row
counts, features present in both) and the same list of feature columns, the
fallback per-feature computation of `perform_statistical_drift_analysis`,
run on the combined-and-partitioned frame that `prepare_data_for_nannyml`
builds from them, produces exactly the same sequence of result records —
same fields, same values, same order — as the per-feature computation of
`analyze_data_drift`. -/
theorem c9_fallback_loop_equivalent (sq : ℚ → ℚ) (ref prod : DataFrame)
    (features : List String) (nref nprod : ℕ) (target : String)
    (href : ∀ f ∈ features, ∃ vs, findCol ref f = some vs ∧ vs.length = nref)
    (hprod : ∀ f ∈ features, ∃ vs, findCol prod f = some vs ∧ vs.length = nprod) :
    perform_statistical_drift_analysis sq (combineFor ref prod nref nprod)
      features target = dataDriftLoopA sq ref prod features := by
  rw [perform_statistical_drift_analysis]
  apply statLoopB_congr
  · intro f hf
    obtain ⟨rv, hrv, hrlen⟩ := href f hf
    obtain ⟨pv, hpv, hplen⟩ := hprod f hf
    rw [findCol_filterPartition, findCol_combineFor_data, hrv, hpv,
      combineFor_partition, refMask]
    simp only [Option.map_some', Option.getD_some]
    rw [maskFilter_ref_rows nref nprod rv pv hrlen hplen]
  · intro f hf
    obtain ⟨rv, hrv, hrlen⟩ := href f hf
    obtain ⟨pv, hpv, hplen⟩ := hprod f hf
    rw [findCol_filterPartition, findCol_combineFor_data, hrv, hpv,
      combineFor_partition, anaMask]
    simp only [Option.map_some', Option.getD_some]
    rw [maskFilter_ana_rows nref nprod rv pv hrlen hplen]

/-- Witness for C9 on a concrete one-feature pair of two-row frames. -/
theorem c9_witness :
    (∀ f ∈ ["T1"], ∃ vs, findCol [("T1", [some 1, some 2])] f = some vs ∧
      vs.length = 2) ∧
    (∀ f ∈ ["T1"], ∃ vs, findCol [("T1", [some 3, some 4])] f = some vs ∧
      vs.length = 2) ∧
    perform_statistical_drift_analysis id
      (combineFor [("T1", [some 1, some 2])] [("T1", [some 3, some 4])] 2 2)
      ["T1"] "Appliances" =
      dataDriftLoopA id [("T1", [some 1, some 2])] [("T1", [some 3, some 4])]
        ["T1"] := by
  have h1 : ∀ f ∈ ["T1"], ∃ vs,
      findCol [("T1", [some 1, some 2])] f = some vs ∧ vs.length = 2 := by
    intro f hf
    rw [List.mem_singleton] at hf
    subst hf
    exact ⟨[some 1, some 2], rfl, rfl⟩
  have h2 : ∀ f ∈ ["T1"], ∃ vs,
      findCol [("T1", [some 3, some 4])] f = some vs ∧ vs.length = 2 := by
    intro f hf
    rw [List.mem_singleton] at hf
    subst hf
    exact ⟨[some 3, some 4], rfl, rfl⟩
  exact ⟨h1, h2, c9_fallback_loop_equivalent id
    [("T1", [some 1, some 2])] [("T1", [some 3, some 4])] ["T1"] 2 2
    "Appliances" h1 h2⟩
